import Mathlib

/-!
# Pratt parser core (`init.lean.parser.pratt`)

A shallow embedding of the compiled module `src/boot/init/lean/parser/pratt.cpp`:
the binding-power resolver `curr_lbp`, the precedence-climbing loop
`trailing_loop`, and the engine `pratt_parser_rarg`.

The compiled code is written against a monad dictionary (`x_0`), a lift of
`peek_token` (`x_1`), a `monad_parsec` dictionary (`x_2`, used for `error` and
`left_over`) and a reader of the parser configuration (`x_3`); the reader layer
of the recursion handle has been inlined, so every function takes the handle as
its last argument.  The embedding instantiates the dictionary with the
state-and-failure monad `Parsec` below and keeps every call of the source as a
call here, lambda by lambda.
-/

namespace Pratt

/-! ## Data model -/

/-- Hierarchical names, as built by `lean_name_mk_string` in
`_init_l_lean_parser_curr__lbp___rarg___lambda__3___closed__1`. -/
inductive Name where
  | anonymous : Name
  | mk_string (p : Name) (s : String) : Name
  deriving DecidableEq

/-- Modelled from the spec: source span of a token (declared in
`init.lean.parser.syntax`, not part of this module); never read by the core. -/
structure SourceInfo where
  leading : String
  pos : Nat
  trailing : String

/-- Modelled from the spec: payload of a symbol token.  `curr_lbp` reads field 1
(`val`, the token text) in case 0 of its switch. -/
structure SyntaxAtom where
  info : Option SourceInfo
  val : String

/-- Modelled from the spec: payload of an identifier token; `curr_lbp` reads none
of its fields. -/
structure SyntaxIdent where
  info : Option SourceInfo
  raw_val : String
  val : Name

/-- Modelled from the spec: payload of a syntax node.  `curr_lbp` reads field 0
(`kind`) in case 2 of its switch. -/
structure SyntaxNode (α : Type) where
  kind : Name
  args : List α

/-- Modelled from the spec: the token / syntax type inspected by `curr_lbp`.
Constructor order is the tag order of the switch in
`l_lean_parser_curr__lbp___rarg___lambda__3`: 0 atom, 1 ident, 2 raw_node,
anything else (`missing`) is the default case. -/
inductive Syntax where
  | atom (val : SyntaxAtom) : Syntax
  | ident (val : SyntaxIdent) : Syntax
  | raw_node (val : SyntaxNode Syntax) : Syntax
  | missing : Syntax

/-- Modelled from the spec: a registry entry (declared in `init.lean.parser.token`,
not part of this module).  `curr_lbp` lambda 1 reads field 1 (`lbp`, the declared
precedence) of the entry found by the trie; field 0 is the token text. -/
structure TokenConfig where
  text : String
  lbp : Nat

/-- Modelled from the spec: the parser configuration returned by `read` (declared
in `init.lean.parser.token`); `curr_lbp` lambda 2 reads field 1 (`tokens`, the
trie). -/
structure ParserConfig (τ : Type) where
  filename : String
  tokens : τ

/-- Modelled from the spec: the parse error of the combinator runtime: position,
diagnostic message, expected-token set and custom payload. -/
structure Message (σ : Type) where
  it : σ
  unexpected : String
  expected : List String
  custom : Option Syntax

/-- Modelled from the spec: the runtime's result type, distinguishing
success-with-value (and the cursor reached) from failure-with-error. -/
inductive Result (σ α : Type) where
  | ok (a : α) (it : σ) : Result σ α
  | error (msg : Message σ) : Result σ α

/-- Modelled from the spec: a parser over cursor type `σ`. -/
def Parsec (σ α : Type) : Type := σ → Result σ α

/-- Modelled from the spec: field 1 of the applicative inside the monad
dictionary (`cnstr_get(cnstr_get(x_0, 0), 1)`), i.e. `pure`. -/
def Parsec.pure {σ α : Type} (a : α) : Parsec σ α :=
  fun it => Result.ok a it

/-- Modelled from the spec: field 1 of the monad dictionary
(`cnstr_get(x_0, 1)`), i.e. sequencing. -/
def Parsec.bind {σ α β : Type} (x : Parsec σ α) (f : α → Parsec σ β) : Parsec σ β :=
  fun it =>
    match x it with
    | Result.ok a it' => f a it'
    | Result.error msg => Result.error msg

/-- Modelled from the spec: `monad_parsec.left_over`
(`l_lean_parser_monad__parsec_left__over___rarg___closed__1`), returning the
current cursor. -/
def Parsec.left_over {σ : Type} : Parsec σ σ :=
  fun it => Result.ok it it

/-- The specialisations `monad_parsec.error` at `curr_lbp`, `trailing_loop` and
`pratt_parser_rarg`: lift of the runtime lambda that fails with the given message;
with `it = none` the position is the current cursor. -/
def monad_parsec_error {σ α : Type} (unexpected : String) (expected : List String)
    (it : Option σ) (custom : Option Syntax) : Parsec σ α :=
  fun it' => Result.error
    { it := it.getD it', unexpected := unexpected, expected := expected, custom := custom }

/-- External collaborators and constants that the module imports (`extern` in
the compiled code): the lifted `peek_token`, the configuration returned by
`read`, `trie.match_prefix`, `string.mk_iterator`, `string.iterator.remaining`,
`max_prec` (field `maxPrec`, the source name being a reserved word here), the
`number` node kind, and the two diagnostic strings of
`many1_aux` and `rec_t.run_parsec`. -/
structure Collab (σ τ : Type) where
  peek_token : Parsec σ (Except (Message σ) Syntax)
  cfg : ParserConfig τ
  match_prefix : τ → σ → Option (σ × TokenConfig)
  mk_iterator : String → σ
  remaining : σ → Nat
  maxPrec : Nat
  number : Name
  many1_aux_closed_1 : String
  run_parsec_closed_1 : String

/-- The reader of the configuration (`x_3`). -/
def Collab.read {σ τ : Type} (env : Collab σ τ) : Parsec σ (ParserConfig τ) :=
  Parsec.pure env.cfg

/-- Name built by `_init_l_lean_parser_curr__lbp___rarg___lambda__3___closed__1`. -/
def string_lit : Name :=
  Name.mk_string (Name.mk_string (Name.mk_string Name.anonymous "lean") "parser") "string_lit"

/-! ## `curr_lbp` -/

/-- Source `l_lean_parser_curr__lbp___rarg___lambda__1`. -/
def curr_lbp_lambda_1 {σ : Type} (x_4 : Option (σ × TokenConfig)) : Parsec σ Nat :=
  match x_4 with
  | none => monad_parsec_error "curr_lbp: unreachable" [] none none
  | some x_11 => Parsec.pure x_11.2.lbp

/-- Source `l_lean_parser_curr__lbp___rarg___lambda__2`. -/
def curr_lbp_lambda_2 {σ τ : Type} (env : Collab σ τ) (x_0 : String)
    (x_5 : ParserConfig τ) : Parsec σ Nat :=
  Parsec.bind (Parsec.pure ( Collab.match_prefix env x_5.tokens (env.mk_iterator x_0)))
    curr_lbp_lambda_1

/-- Source `l_lean_parser_curr__lbp___rarg___lambda__3`. -/
def curr_lbp_lambda_3 {σ τ : Type} (env : Collab σ τ)
    (x_5 : Except (Message σ) Syntax) : Parsec σ Nat :=
  match x_5 with
  | Except.error _ => Parsec.pure 0
  | Except.ok (Syntax.atom x_22) => Parsec.bind env.read (curr_lbp_lambda_2 env x_22.val)
  | Except.ok (Syntax.ident _) => Parsec.pure env.maxPrec
  | Except.ok (Syntax.raw_node x_46) =>
    if x_46.kind = env.number then Parsec.pure env.maxPrec
    else if x_46.kind = string_lit then Parsec.pure env.maxPrec
    else monad_parsec_error "curr_lbp: unknown token kind" [] none none
  | Except.ok Syntax.missing =>
    monad_parsec_error "curr_lbp: unknown token kind" [] none none

/-- Source `l_lean_parser_curr__lbp___rarg`; `x_4` is the recursion handle, which
only reaches the (ignored) last argument of `error`. -/
def curr_lbp {σ τ ν : Type} (env : Collab σ τ) (_x_4 : Nat → Parsec σ ν) : Parsec σ Nat :=
  Parsec.bind env.peek_token (curr_lbp_lambda_3 env)

/-! ## `trailing_loop` -/

/-- Source `l___private_init_lean_parser_pratt_1__trailing__loop___main___rarg`
with its lambdas 2 (the test `rbp < lbp`) and 1 (the recursive call).  Arguments
in source order: trailing `x_4`, rbp `x_5`, fuel `x_6`, left `x_7`, handle `x_8`. -/
def trailing_loop {σ τ ν : Type} (env : Collab σ τ)
    (trailing : ν → (Nat → Parsec σ ν) → Parsec σ ν) (rbp : Nat) :
    Nat → ν → (Nat → Parsec σ ν) → Parsec σ ν
  | 0, _, _ => monad_parsec_error env.many1_aux_closed_1 [] none none
  | x_12 + 1, left, recurse =>
    Parsec.bind (curr_lbp env recurse) (fun lbp =>
      if rbp < lbp then
        Parsec.bind (trailing left recurse) (fun x_8 =>
          trailing_loop env trailing rbp x_12 x_8 recurse)
      else Parsec.pure left)

/-! ## `pratt_parser_rarg` -/

/-- Modelled from the spec: `fix_core` (module `init.fix`, not in src), the
self-referential fixed point: `recurse` receives the function itself; `depth`
bounds the nesting of self-reference, and `base` answers beyond it. -/
def fix_core {α β : Type} (base : α → β) (recurse : (α → β) → α → β) : Nat → α → β
  | 0 => base
  | depth + 1 => recurse (fix_core base recurse depth)

/-- Source `l_lean_parser_pratt__parser___rarg___lambda__1`. -/
def pratt_parser_lambda_1 {σ τ ν : Type} (env : Collab σ τ) (_x_2 : Nat) : Parsec σ ν :=
  monad_parsec_error env.run_parsec_closed_1 [] none none

/-- Source `l_lean_parser_pratt__parser___rarg___lambda__2`. -/
def pratt_parser_lambda_2 {σ τ : Type} (env : Collab σ τ) (x_1 : σ) : Parsec σ Nat :=
  Parsec.pure (env.remaining x_1)

/-- Source `l_lean_parser_pratt__parser___rarg___lambda__3`. -/
def pratt_parser_lambda_3 {σ τ ν : Type} (env : Collab σ τ)
    (trailing : ν → (Nat → Parsec σ ν) → Parsec σ ν) (rbp : Nat) (left : ν)
    (recurse : Nat → Parsec σ ν) (x_8 : Nat) : Parsec σ ν :=
  trailing_loop env trailing rbp (x_8 + 1) left recurse

/-- Source `l_lean_parser_pratt__parser___rarg___lambda__4`. -/
def pratt_parser_lambda_4 {σ τ ν : Type} (env : Collab σ τ)
    (trailing : ν → (Nat → Parsec σ ν) → Parsec σ ν) (rbp : Nat)
    (recurse : Nat → Parsec σ ν) (x_8 : ν) : Parsec σ ν :=
  Parsec.bind (Parsec.bind Parsec.left_over (pratt_parser_lambda_2 env))
    (pratt_parser_lambda_3 env trailing rbp x_8 recurse)

/-- Source `l_lean_parser_pratt__parser___rarg___lambda__5`. -/
def pratt_parser_lambda_5 {σ τ ν : Type} (env : Collab σ τ)
    (leading : (Nat → Parsec σ ν) → Parsec σ ν)
    (trailing : ν → (Nat → Parsec σ ν) → Parsec σ ν)
    (recurse : Nat → Parsec σ ν) (rbp : Nat) : Parsec σ ν :=
  Parsec.bind (leading recurse) (pratt_parser_lambda_4 env trailing rbp recurse)

/-- Source `l_lean_parser_pratt__parser___rarg`: the action `x_8` is run with the
fixed point of lambda 5 as its recursion handle. -/
def pratt_parser_rarg {σ τ ν α : Type} (env : Collab σ τ)
    (leading : (Nat → Parsec σ ν) → Parsec σ ν)
    (trailing : ν → (Nat → Parsec σ ν) → Parsec σ ν)
    (x_8 : (Nat → Parsec σ ν) → Parsec σ α) (depth : Nat) : Parsec σ α :=
  x_8 (fix_core (pratt_parser_lambda_1 env) (pratt_parser_lambda_5 env leading trailing) depth)

/-! ## The climbing scenario

Infix `+` registered at precedence 10 and infix `*` at precedence 20, a leading
rule for one-digit integer literals, cursors that are the list of characters
still to read. -/

/-- Expression nodes of the scenario. -/
inductive Expr where
  | Lit (n : Nat) : Expr
  | Add (l r : Expr) : Expr
  | Mul (l r : Expr) : Expr
  deriving DecidableEq

/-- Node kind of number tokens in the scenario. -/
def scenario_number : Name :=
  Name.mk_string (Name.mk_string (Name.mk_string Name.anonymous "lean") "parser") "number"

/-- Lookahead of the scenario: no token at end of input, a number node on a
digit, a symbol token made of the next character otherwise; the cursor is not
moved. -/
def scenario_peek_token : Parsec (List Char) (Except (Message (List Char)) Syntax) :=
  fun it =>
    match it with
    | [] => Result.ok (Except.error
        { it := it, unexpected := "end of input", expected := [], custom := none }) it
    | c :: _ =>
      if c.isDigit then
        Result.ok (Except.ok (Syntax.raw_node { kind := scenario_number, args := [] })) it
      else Result.ok (Except.ok (Syntax.atom { info := none, val := String.mk [c] })) it

/-- Registry lookup of the scenario: the first entry whose text starts the
given text. -/
def scenario_match (trie : List TokenConfig) (it : List Char) :
    Option (List Char × TokenConfig) :=
  match trie.find? (fun e => e.text.toList.isPrefixOf it) with
  | none => none
  | some e => some (it.drop e.text.length, e)

/-- Collaborators of the scenario: `+` at precedence 10, `*` at precedence 20. -/
def scenario_env : Collab (List Char) (List TokenConfig) where
  peek_token := scenario_peek_token
  cfg := { filename := "", tokens := [{ text := "+", lbp := 10 }, { text := "*", lbp := 20 }] }
  match_prefix := scenario_match
  mk_iterator := String.toList
  remaining := List.length
  maxPrec := 1024
  number := scenario_number
  many1_aux_closed_1 := "unreachable"
  run_parsec_closed_1 := "no progress"

/-- Leading rule of the scenario: a one-digit integer literal. -/
def scenario_leading (_recurse : Nat → Parsec (List Char) Expr) : Parsec (List Char) Expr :=
  fun it =>
    match it with
    | [] => monad_parsec_error "end of input" ["expression"] none none it
    | c :: rest =>
      if c.isDigit then Result.ok (Expr.Lit (c.toNat - 48)) rest
      else monad_parsec_error "no leading rule" ["expression"] none none it

/-- Trailing rule of the scenario: `+` parses its right operand with
`parseExpr 11`, `*` with `parseExpr 21`. -/
def scenario_trailing (left : Expr) (recurse : Nat → Parsec (List Char) Expr) :
    Parsec (List Char) Expr :=
  fun it =>
    match it with
    | [] => monad_parsec_error "end of input" ["operator"] none none it
    | c :: rest =>
      if c = '+' then Parsec.bind (recurse 11) (fun r => Parsec.pure (Expr.Add left r)) rest
      else if c = '*' then Parsec.bind (recurse 21) (fun r => Parsec.pure (Expr.Mul left r)) rest
      else monad_parsec_error "no trailing rule" ["operator"] none none it

/-- Cursor at which a result was produced: the cursor reached on success, the
position recorded in the message on failure. -/
def Result.cursor {σ α : Type} : Result σ α → σ
  | Result.ok _ it => it
  | Result.error msg => msg.it

/-- The recursion handle that `pratt_parser_rarg` builds for the scenario. -/
def scenario_handle (depth : Nat) : Nat → Parsec (List Char) Expr :=
  fix_core (pratt_parser_lambda_1 scenario_env)
    (pratt_parser_lambda_5 scenario_env scenario_leading scenario_trailing) depth

/-! ## A defective trailing rule, with ghost counters

Cursors carry two counters that no parser reads: `calls` is bumped by every run
of the trailing rule, `scans` by every lookahead read.  The rule succeeds
without consuming input and every lookahead is an identifier, so only the fuel
stops the loop. -/

/-- Cursor with two ghost counters. -/
structure Counted where
  input : List Char
  calls : Nat
  scans : Nat

/-- Lookahead that always sees an identifier and bumps `scans`. -/
def stuck_peek_token : Parsec Counted (Except (Message Counted) Syntax) :=
  fun it => Result.ok
    (Except.ok (Syntax.ident
      { info := none, raw_val := "x", val := Name.mk_string Name.anonymous "x" }))
    { it with scans := it.scans + 1 }

/-- Collaborators for the defective rule. -/
def stuck_env : Collab Counted Unit where
  peek_token := stuck_peek_token
  cfg := { filename := "", tokens := () }
  match_prefix := fun _ _ => none
  mk_iterator := fun s => { input := s.toList, calls := 0, scans := 0 }
  remaining := fun it => it.input.length
  maxPrec := 1024
  number := scenario_number
  many1_aux_closed_1 := "unreachable"
  run_parsec_closed_1 := "no progress"

/-- Trailing rule that reports success while consuming no input; it bumps
`calls`. -/
def stuck_trailing (left : Expr) (_recurse : Nat → Parsec Counted Expr) : Parsec Counted Expr :=
  fun it => Result.ok left { it with calls := it.calls + 1 }

/-- A recursion handle that is never successful. -/
def stuck_handle (_rbp : Nat) : Parsec Counted Expr :=
  monad_parsec_error "no progress" [] none none

/-! ## An identifier that starts with a registered token -/

/-- Lookahead that reads the leading run of letters as an identifier token,
without moving the cursor. -/
def ident_peek_token : Parsec (List Char) (Except (Message (List Char)) Syntax) :=
  fun it => Result.ok
    (Except.ok (Syntax.ident
      { info := none, raw_val := String.mk (it.takeWhile Char.isAlpha),
        val := Name.mk_string Name.anonymous (String.mk (it.takeWhile Char.isAlpha)) }))
    it

/-- Collaborators with the single registered token `in` at precedence 5. -/
def ident_env : Collab (List Char) (List TokenConfig) where
  peek_token := ident_peek_token
  cfg := { filename := "", tokens := [{ text := "in", lbp := 5 }] }
  match_prefix := scenario_match
  mk_iterator := String.toList
  remaining := List.length
  maxPrec := 1024
  number := scenario_number
  many1_aux_closed_1 := "unreachable"
  run_parsec_closed_1 := "no progress"

/-! ## A lookahead of an unregistered kind -/

/-- A node kind that is neither `number` nor `string_lit`. -/
def other_kind : Name :=
  Name.mk_string (Name.mk_string (Name.mk_string Name.anonymous "lean") "parser") "other"

/-- Lookahead that always sees a node of kind `other_kind`, without moving the
cursor. -/
def other_peek_token : Parsec (List Char) (Except (Message (List Char)) Syntax) :=
  fun it => Result.ok (Except.ok (Syntax.raw_node { kind := other_kind, args := [] })) it

/-- Collaborators of the scenario with the lookahead replaced by
`other_peek_token`. -/
def other_env : Collab (List Char) (List TokenConfig) where
  peek_token := other_peek_token
  cfg := { filename := "", tokens := [{ text := "+", lbp := 10 }, { text := "*", lbp := 20 }] }
  match_prefix := scenario_match
  mk_iterator := String.toList
  remaining := List.length
  maxPrec := 1024
  number := scenario_number
  many1_aux_closed_1 := "unreachable"
  run_parsec_closed_1 := "no progress"

/-! ## The engine in direct style -/

/-- The engine body as the specification words it (steps 2 to 5 of `parseExpr`):
run the leading rule and propagate its failure; otherwise measure the fuel at the
cursor the leading rule left and return the result of the loop on the leading
node with threshold `minPrecedence`.  The fuel is the remaining-input count at
that cursor plus one. -/
def parseExpr_direct {σ τ ν : Type} (env : Collab σ τ)
    (leading : (Nat → Parsec σ ν) → Parsec σ ν)
    (trailing : ν → (Nat → Parsec σ ν) → Parsec σ ν)
    (recurse : Nat → Parsec σ ν) (minPrecedence : Nat) : Parsec σ ν :=
  fun it =>
    match leading recurse it with
    | Result.error msg => Result.error msg
    | Result.ok node it₁ =>
      trailing_loop env trailing minPrecedence (env.remaining it₁ + 1) node recurse it₁

/-! ## `pratt_parser.tokens` -/

/-- Modelled from the spec: list append of the core library
(`l_list_append___rarg`, module `init.data.list`, not in src). -/
def list_append {α : Type} (x_0 x_1 : List α) : List α :=
  x_0 ++ x_1

/-- Source `l_lean_parser_pratt__parser_tokens___rarg`: `x_0` is the token list of
the leading parser, `x_1` the token list of the trailing parser. -/
def pratt_parser_tokens_rarg {α : Type} (x_0 x_1 : List α) : List α :=
  list_append x_0 x_1

/-! ## A well-behaved postfix rule -/

/-- Trailing rule that consumes one `!` and wraps the left operand; it fails
on anything else and never calls the recursion handle. -/
def bang_trailing (left : Expr) (_recurse : Nat → Parsec (List Char) Expr) :
    Parsec (List Char) Expr :=
  fun it =>
    match it with
    | [] => monad_parsec_error "end of input" ["operator"] none none it
    | c :: rest =>
      if c = '!' then Result.ok (Expr.Mul left left) rest
      else monad_parsec_error "no trailing rule" ["operator"] none none it

/-- Collaborators with the single registered token `!` at precedence 30 and the
lookahead of the scenario. -/
def bang_env : Collab (List Char) (List TokenConfig) where
  peek_token := scenario_peek_token
  cfg := { filename := "", tokens := [{ text := "!", lbp := 30 }] }
  match_prefix := scenario_match
  mk_iterator := String.toList
  remaining := List.length
  maxPrec := 1024
  number := scenario_number
  many1_aux_closed_1 := "unreachable"
  run_parsec_closed_1 := "no progress"

/-! ## Productive rules

The engine refers to itself through `fix_core`, whose depth index stands for the
nesting of self-reference.  Rules that call the handle only after consuming input
need a nesting no deeper than the input is long; the predicates below say so. -/

theorem Parsec.bind_ok {σ α β : Type} (x : Parsec σ α) (f : α → Parsec σ β) (it it' : σ) (a : α)
    (h : x it = Result.ok a it') : Parsec.bind x f it = f a it' := by
  simp only [Parsec.bind, h]

theorem Parsec.bind_error {σ α β : Type} (x : Parsec σ α) (f : α → Parsec σ β) (it : σ)
    (msg : Message σ) (h : x it = Result.error msg) :
    Parsec.bind x f it = Result.error msg := by
  simp only [Parsec.bind, h]

/-- Unfolding of the loop at positive fuel once the resolver has answered. -/
theorem trailing_loop_succ_of_lbp {σ τ ν : Type} (env : Collab σ τ)
    (trailing : ν → (Nat → Parsec σ ν) → Parsec σ ν) (rbp n : Nat) (left : ν)
    (recurse : Nat → Parsec σ ν) (it it' : σ) (lbp : Nat)
    (h : curr_lbp env recurse it = Result.ok lbp it') :
    trailing_loop env trailing rbp (n + 1) left recurse it =
      (if rbp < lbp then
        Parsec.bind (trailing left recurse) (fun x_8 =>
          trailing_loop env trailing rbp n x_8 recurse)
      else Parsec.pure left) it' := by
  rw [trailing_loop]
  exact Parsec.bind_ok _ _ it it' lbp h

/-- Unfolding of the loop at fuel 0. -/
theorem fuel_zero_fails_aux {σ τ ν : Type} (env : Collab σ τ)
    (trailing : ν → (Nat → Parsec σ ν) → Parsec σ ν) (rbp : Nat) (node : ν)
    (recurse : Nat → Parsec σ ν) (it : σ) :
    trailing_loop env trailing rbp 0 node recurse it =
      Result.error
        { it := it, unexpected := env.many1_aux_closed_1, expected := [], custom := none } := by
  rw [trailing_loop]
  rfl

/-! ## Climbing correctness -/

/-- C1: in the scenario (`+` at precedence 10 with right operand `parseExpr 11`,
`*` at precedence 20, integer-literal leading rule), `pratt_parser_rarg` run on
"1+2*3" with minimum precedence 0 succeeds with `Add (Lit 1) (Mul (Lit 2) (Lit 3))`
at end of input; the lookahead `*` resolves to 20, and the nested call with
threshold 11 started at "2*3" consumes it and returns `Mul (Lit 2) (Lit 3)`. -/
theorem climbing_correctness (d : Nat) :
    pratt_parser_rarg scenario_env scenario_leading scenario_trailing
        (fun recurse => recurse 0) (d + 3) "1+2*3".toList
      = Result.ok (Expr.Add (Expr.Lit 1) (Expr.Mul (Expr.Lit 2) (Expr.Lit 3))) []
    ∧ curr_lbp scenario_env (scenario_handle (d + 1)) "*3".toList
      = Result.ok 20 "*3".toList
    ∧ scenario_handle (d + 2) 11 "2*3".toList
      = Result.ok (Expr.Mul (Expr.Lit 2) (Expr.Lit 3)) [] :=
  ⟨rfl, rfl, rfl⟩

/-! ## The loop: applying, stopping, fuel -/

/-- C2 (as stated, refuted): in the scenario the lookahead `+` resolves to 10, the
threshold is 10 (so the binding power is not below the threshold), fuel is 1, and
the loop returns the node `Lit 1` with `+` unread instead of running the
trailing rule on it. -/
theorem applying_at_equal_power_refuted :
    curr_lbp scenario_env (scenario_handle 3) "+2".toList = Result.ok 10 "+2".toList
    ∧ 10 ≥ 10
    ∧ trailing_loop scenario_env scenario_trailing 10 1 (Expr.Lit 1) (scenario_handle 3)
        "+2".toList = Result.ok (Expr.Lit 1) "+2".toList
    ∧ trailing_loop scenario_env scenario_trailing 10 1 (Expr.Lit 1) (scenario_handle 3)
        "+2".toList
      ≠ Parsec.bind (scenario_trailing (Expr.Lit 1) (scenario_handle 3))
          (fun x_8 => trailing_loop scenario_env scenario_trailing 10 0 x_8 (scenario_handle 3))
          "+2".toList := by
  refine ⟨rfl, Nat.le_refl 10, rfl, ?_⟩
  intro h
  have h1 : trailing_loop scenario_env scenario_trailing 10 1 (Expr.Lit 1) (scenario_handle 3)
      "+2".toList = Result.ok (Expr.Lit 1) "+2".toList := rfl
  have h2 : Parsec.bind (scenario_trailing (Expr.Lit 1) (scenario_handle 3))
      (fun x_8 => trailing_loop scenario_env scenario_trailing 10 0 x_8 (scenario_handle 3))
      "+2".toList
      = Result.error { it := [], unexpected := "unreachable", expected := [], custom := none } :=
    rfl
  rw [h1, h2] at h
  cases h

/-- C2 (amended): with positive fuel, when the resolver succeeds with a binding
power strictly above the threshold, the loop runs the trailing rule on `node`
from the cursor the resolver left and continues with its result. -/
theorem applying_rule {σ τ ν : Type} (env : Collab σ τ)
    (trailing : ν → (Nat → Parsec σ ν) → Parsec σ ν) (rbp n : Nat) (node : ν)
    (recurse : Nat → Parsec σ ν) (it it' : σ) (bp : Nat)
    (hres : curr_lbp env recurse it = Result.ok bp it') (hbp : rbp < bp) :
    trailing_loop env trailing rbp (n + 1) node recurse it =
      Parsec.bind (trailing node recurse)
        (fun x_8 => trailing_loop env trailing rbp n x_8 recurse) it' := by
  rw [trailing_loop_succ_of_lbp env trailing rbp n node recurse it it' bp hres, if_pos hbp]

theorem applying_rule_witness :
    curr_lbp scenario_env (scenario_handle 3) "+2".toList = Result.ok 10 "+2".toList
    ∧ 9 < 10
    ∧ trailing_loop scenario_env scenario_trailing 9 1 (Expr.Lit 1) (scenario_handle 3)
        "+2".toList
      = Parsec.bind (scenario_trailing (Expr.Lit 1) (scenario_handle 3))
          (fun x_8 => trailing_loop scenario_env scenario_trailing 9 0 x_8 (scenario_handle 3))
          "+2".toList :=
  ⟨rfl, by decide,
    applying_rule scenario_env scenario_trailing 9 0 (Expr.Lit 1) (scenario_handle 3)
      "+2".toList "+2".toList 10 rfl (by decide)⟩

/-- C3: with positive fuel, when the resolver succeeds with a binding power below
the threshold, the loop succeeds with exactly `node` at the cursor the resolver
left, whatever the trailing rule is (so the rule is not run). -/
theorem stopping_rule {σ τ ν : Type} (env : Collab σ τ)
    (trailing : ν → (Nat → Parsec σ ν) → Parsec σ ν) (rbp n : Nat) (node : ν)
    (recurse : Nat → Parsec σ ν) (it it' : σ) (bp : Nat)
    (hres : curr_lbp env recurse it = Result.ok bp it') (hbp : bp < rbp) :
    trailing_loop env trailing rbp (n + 1) node recurse it = Result.ok node it' := by
  rw [trailing_loop_succ_of_lbp env trailing rbp n node recurse it it' bp hres,
    if_neg (Nat.lt_asymm hbp)]
  rfl

theorem stopping_rule_witness :
    curr_lbp scenario_env (scenario_handle 3) "+2".toList = Result.ok 10 "+2".toList
    ∧ 10 < 11
    ∧ trailing_loop scenario_env scenario_trailing 11 1 (Expr.Lit 1) (scenario_handle 3)
        "+2".toList = Result.ok (Expr.Lit 1) "+2".toList :=
  ⟨rfl, by decide,
    stopping_rule scenario_env scenario_trailing 11 0 (Expr.Lit 1) (scenario_handle 3)
      "+2".toList "+2".toList 10 rfl (by decide)⟩

/-- C4 (as stated, refuted): in the scenario, the loop called with fuel 0 on the
node `Lit 1` at "+2" does not return the node: it fails with the diagnostic of
the zero-fuel branch. -/
theorem fuel_zero_success_refuted :
    trailing_loop scenario_env scenario_trailing 0 0 (Expr.Lit 1) (scenario_handle 3)
        "+2".toList
      = Result.error
          { it := "+2".toList, unexpected := "unreachable", expected := [], custom := none }
    ∧ trailing_loop scenario_env scenario_trailing 0 0 (Expr.Lit 1) (scenario_handle 3)
        "+2".toList ≠ Result.ok (Expr.Lit 1) "+2".toList := by
  refine ⟨rfl, ?_⟩
  intro h
  have h1 : trailing_loop scenario_env scenario_trailing 0 0 (Expr.Lit 1) (scenario_handle 3)
      "+2".toList = Result.error
        { it := "+2".toList, unexpected := "unreachable", expected := [], custom := none } :=
    rfl
  rw [h1] at h
  cases h

/-- C4 (amended): for every node, threshold, trailing rule, handle and cursor, the
loop called with fuel 0 fails at the current cursor with the diagnostic string of
the zero-fuel branch and the empty expected set; it returns no node. -/
theorem fuel_zero_fails {σ τ ν : Type} (env : Collab σ τ)
    (trailing : ν → (Nat → Parsec σ ν) → Parsec σ ν) (rbp : Nat) (node : ν)
    (recurse : Nat → Parsec σ ν) (it : σ) :
    trailing_loop env trailing rbp 0 node recurse it =
      Result.error
        { it := it, unexpected := env.many1_aux_closed_1, expected := [], custom := none } := by
  rw [trailing_loop]
  rfl

/-! ## The resolver -/

/-- The resolver ends where the lookahead read ends: on success at the cursor
`peek_token` left, on failure at the position of the failure. -/
theorem curr_lbp_cursor {σ τ ν : Type} (env : Collab σ τ) (recurse : Nat → Parsec σ ν)
    (it : σ) :
    (curr_lbp env recurse it).cursor = (env.peek_token it).cursor := by
  unfold curr_lbp Parsec.bind
  cases h : env.peek_token it with
  | error msg => rfl
  | ok tk it' =>
    cases tk with
    | error e => rfl
    | ok stx =>
      cases stx with
      | atom a =>
        simp only [curr_lbp_lambda_3, Parsec.bind, Collab.read, Parsec.pure, curr_lbp_lambda_2]
        cases Collab.match_prefix env env.cfg.tokens (env.mk_iterator a.val) <;> rfl
      | ident i => rfl
      | raw_node n =>
        simp only [curr_lbp_lambda_3]
        split
        · rfl
        · split <;> rfl
      | missing => rfl

/-- C8: at every cursor where the lookahead read reports no token (an error
result of `peek_token`), the resolver succeeds with 0, whatever the registry
holds. -/
theorem curr_lbp_no_lookahead {σ τ ν : Type} (env : Collab σ τ) (recurse : Nat → Parsec σ ν)
    (it it' : σ) (e : Message σ)
    (h : env.peek_token it = Result.ok (Except.error e) it') :
    curr_lbp env recurse it = Result.ok 0 it' := by
  unfold curr_lbp
  rw [Parsec.bind_ok _ _ it it' _ h]
  rfl

theorem curr_lbp_no_lookahead_witness :
    scenario_env.peek_token [] = Result.ok (Except.error
        { it := [], unexpected := "end of input", expected := [], custom := none }) []
    ∧ curr_lbp scenario_env (scenario_handle 3) [] = Result.ok 0 [] :=
  ⟨rfl, curr_lbp_no_lookahead scenario_env (scenario_handle 3) [] []
    { it := [], unexpected := "end of input", expected := [], custom := none } rfl⟩

/-- C9: for a symbol lookahead whose text has a match in the registry trie, the
resolver succeeds with the `lbp` field of the matched entry. -/
theorem curr_lbp_registered_symbol {σ τ ν : Type} (env : Collab σ τ)
    (recurse : Nat → Parsec σ ν) (it it' : σ) (a : SyntaxAtom) (entry : σ × TokenConfig)
    (h : env.peek_token it = Result.ok (Except.ok (Syntax.atom a)) it')
    (hm : Collab.match_prefix env env.cfg.tokens (env.mk_iterator a.val) = some entry) :
    curr_lbp env recurse it = Result.ok entry.2.lbp it' := by
  unfold curr_lbp
  rw [Parsec.bind_ok _ _ it it' _ h]
  simp only [curr_lbp_lambda_3, Parsec.bind, Collab.read, Parsec.pure, curr_lbp_lambda_2, hm,
    curr_lbp_lambda_1]

theorem curr_lbp_registered_symbol_witness :
    scenario_env.peek_token "*3".toList
      = Result.ok (Except.ok (Syntax.atom { info := none, val := "*" })) "*3".toList
    ∧ Collab.match_prefix scenario_env scenario_env.cfg.tokens (scenario_env.mk_iterator "*")
      = some ([], { text := "*", lbp := 20 })
    ∧ curr_lbp scenario_env (scenario_handle 3) "*3".toList = Result.ok 20 "*3".toList :=
  ⟨rfl, rfl,
    curr_lbp_registered_symbol scenario_env (scenario_handle 3) "*3".toList "*3".toList
      { info := none, val := "*" } ([], { text := "*", lbp := 20 }) rfl rfl⟩

/-- C10 (as stated, refuted): with the token `in` registered at precedence 5, the
identifier lookahead `inner` has a text that the trie matches (entry `in`), yet
the resolver answers `max_prec` (1024 here), not the entry's precedence 5. -/
theorem trie_before_kind_refuted :
    ident_env.peek_token "inner".toList
      = Result.ok (Except.ok (Syntax.ident
          { info := none, raw_val := "inner", val := Name.mk_string Name.anonymous "inner" }))
          "inner".toList
    ∧ Collab.match_prefix ident_env ident_env.cfg.tokens (ident_env.mk_iterator "inner")
      = some ("ner".toList, { text := "in", lbp := 5 })
    ∧ curr_lbp ident_env (scenario_handle 3) "inner".toList = Result.ok 1024 "inner".toList
    ∧ curr_lbp ident_env (scenario_handle 3) "inner".toList ≠ Result.ok 5 "inner".toList := by
  refine ⟨rfl, rfl, rfl, ?_⟩
  intro h
  have h1 : curr_lbp ident_env (scenario_handle 3) "inner".toList
      = Result.ok 1024 "inner".toList := rfl
  rw [h1] at h
  cases h

/-- C10 (amended): the token kind is tested first.  For a symbol lookahead whose
text the trie matches, the resolver returns the matched entry's precedence; for
an identifier lookahead it returns `max_prec` without consulting the trie, so
also when the identifier's text has a trie match. -/
theorem kind_before_trie {σ τ ν : Type} (env : Collab σ τ) (recurse : Nat → Parsec σ ν)
    (it it' : σ) (tk : Syntax)
    (h : env.peek_token it = Result.ok (Except.ok tk) it') :
    (∀ (a : SyntaxAtom) (entry : σ × TokenConfig), tk = Syntax.atom a →
        Collab.match_prefix env env.cfg.tokens (env.mk_iterator a.val) = some entry →
        curr_lbp env recurse it = Result.ok entry.2.lbp it')
    ∧ (∀ (i : SyntaxIdent), tk = Syntax.ident i →
        ∀ (trie : τ), curr_lbp { env with cfg := { env.cfg with tokens := trie } } recurse it
          = Result.ok env.maxPrec it') := by
  constructor
  · intro a entry htk hm
    subst htk
    unfold curr_lbp
    rw [Parsec.bind_ok _ _ it it' _ h]
    simp only [curr_lbp_lambda_3, Parsec.bind, Collab.read, Parsec.pure, curr_lbp_lambda_2, hm,
      curr_lbp_lambda_1]
  · intro i htk trie
    subst htk
    unfold curr_lbp
    have h' : Collab.peek_token { env with cfg := { env.cfg with tokens := trie } } it
        = Result.ok (Except.ok (Syntax.ident i)) it' := h
    rw [Parsec.bind_ok _ _ it it' _ h']
    rfl

theorem kind_before_trie_witness :
    ident_env.peek_token "inner".toList
      = Result.ok (Except.ok (Syntax.ident
          { info := none, raw_val := "inner", val := Name.mk_string Name.anonymous "inner" }))
          "inner".toList
    ∧ ((∀ (a : SyntaxAtom) (entry : List Char × TokenConfig),
          Syntax.ident
            { info := none, raw_val := "inner", val := Name.mk_string Name.anonymous "inner" }
            = Syntax.atom a →
          Collab.match_prefix ident_env ident_env.cfg.tokens (ident_env.mk_iterator a.val)
            = some entry →
          curr_lbp ident_env (scenario_handle 3) "inner".toList
            = Result.ok entry.2.lbp "inner".toList)
      ∧ (∀ (i : SyntaxIdent),
          Syntax.ident
            { info := none, raw_val := "inner", val := Name.mk_string Name.anonymous "inner" }
            = Syntax.ident i →
          ∀ (trie : List TokenConfig),
            curr_lbp { ident_env with cfg := { ident_env.cfg with tokens := trie } }
              (scenario_handle 3) "inner".toList
            = Result.ok ident_env.maxPrec "inner".toList)) :=
  ⟨rfl, kind_before_trie ident_env (scenario_handle 3) "inner".toList "inner".toList
    (Syntax.ident
      { info := none, raw_val := "inner", val := Name.mk_string Name.anonymous "inner" }) rfl⟩

/-! ## Termination and the step equation -/

/-- C5: the loop is a total function of its fuel, and for any ghost measures
`calls` (bumped by one at every run of the trailing rule, untouched by the
lookahead read) and `scans` (bumped by one at every lookahead read, untouched by
the trailing rule), a run started with fuel `f₀` ends with at most `f₀` runs of
the trailing rule and at most `f₀` lookahead reads (so at most `f₀ + 1` entries
of the loop, the last one possibly at fuel 0), whatever the rule does, a rule
that succeeds without consuming input included. -/
theorem trailing_loop_terminates {σ τ ν : Type} (env : Collab σ τ)
    (trailing : ν → (Nat → Parsec σ ν) → Parsec σ ν) (rbp : Nat)
    (recurse : Nat → Parsec σ ν) (calls scans : σ → Nat)
    (hpeek : ∀ it, calls (env.peek_token it).cursor = calls it
      ∧ scans (env.peek_token it).cursor = scans it + 1)
    (htrail : ∀ left it, calls (trailing left recurse it).cursor = calls it + 1
      ∧ scans (trailing left recurse it).cursor = scans it)
    (f₀ : Nat) (node : ν) (it : σ) :
    ∃ r : Result σ ν, trailing_loop env trailing rbp f₀ node recurse it = r
      ∧ calls r.cursor ≤ calls it + f₀ ∧ scans r.cursor ≤ scans it + f₀ := by
  refine ⟨_, rfl, ?_⟩
  induction f₀ generalizing node it with
  | zero =>
    rw [fuel_zero_fails_aux env trailing rbp node recurse it]
    exact ⟨Nat.le_refl _, Nat.le_refl _⟩
  | succ n ih =>
    have hc := curr_lbp_cursor env recurse it
    have hp := hpeek it
    rw [← hc] at hp
    cases hres : curr_lbp env recurse it with
    | error msg =>
      rw [hres] at hp
      have hl : trailing_loop env trailing rbp (n + 1) node recurse it = Result.error msg := by
        rw [trailing_loop]
        exact Parsec.bind_error _ _ it msg hres
      rw [hl]
      simp only [Result.cursor] at hp ⊢
      omega
    | ok lbp it' =>
      rw [hres] at hp
      simp only [Result.cursor] at hp
      rw [trailing_loop_succ_of_lbp env trailing rbp n node recurse it it' lbp hres]
      by_cases hlt : rbp < lbp
      · rw [if_pos hlt]
        have ht := htrail node it'
        cases htr : trailing node recurse it' with
        | error msg =>
          rw [htr] at ht
          rw [Parsec.bind_error _ _ it' msg htr]
          simp only [Result.cursor] at ht ⊢
          omega
        | ok node' it₂ =>
          rw [htr] at ht
          simp only [Result.cursor] at ht
          rw [Parsec.bind_ok _ _ it' it₂ node' htr]
          have h := ih node' it₂
          omega
      · rw [if_neg hlt]
        simp only [Parsec.pure, Result.cursor]
        omega

theorem trailing_loop_terminates_witness :
    ∃ r : Result Counted Expr,
      trailing_loop stuck_env stuck_trailing 0 3 (Expr.Lit 1) stuck_handle
          { input := ['x'], calls := 0, scans := 0 } = r
      ∧ Counted.calls r.cursor ≤ 0 + 3 ∧ Counted.scans r.cursor ≤ 0 + 3 :=
  trailing_loop_terminates stuck_env stuck_trailing 0 stuck_handle Counted.calls Counted.scans
    (fun _ => ⟨rfl, rfl⟩) (fun _ _ => ⟨rfl, rfl⟩) 3 (Expr.Lit 1)
    { input := ['x'], calls := 0, scans := 0 }

/-- C6: if, from the nodes `node 0, node 1, ...` and cursors `cur 0, cur 1, ...`,
each of the first `k` rounds resolves a binding power above the threshold and its
trailing rule turns `node i` into `node (i + 1)`, leaving the cursor at
`cur (i + 1)`, then the loop started with fuel `f₀ ≥ k` is, after these `k`
rounds, exactly the loop at fuel `f₀ - k` with the same threshold on `node k`
from `cur k`; with `k = 1` this is the step equation of a single round. -/
theorem trailing_loop_steps {σ τ ν : Type} (env : Collab σ τ)
    (trailing : ν → (Nat → Parsec σ ν) → Parsec σ ν) (rbp : Nat)
    (recurse : Nat → Parsec σ ν) (node : Nat → ν) (cur cur' : Nat → σ) (bp : Nat → Nat)
    (k f₀ : Nat) (hk : k ≤ f₀)
    (hres : ∀ i, i < k → curr_lbp env recurse (cur i) = Result.ok (bp i) (cur' i))
    (hbp : ∀ i, i < k → rbp < bp i)
    (htrail : ∀ i, i < k →
      trailing (node i) recurse (cur' i) = Result.ok (node (i + 1)) (cur (i + 1))) :
    trailing_loop env trailing rbp f₀ (node 0) recurse (cur 0)
      = trailing_loop env trailing rbp (f₀ - k) (node k) recurse (cur k) := by
  induction k with
  | zero => rfl
  | succ j ih =>
    have hj : j < j + 1 := Nat.lt_succ_self j
    rw [ih (Nat.le_of_succ_le hk) (fun i hi => hres i (Nat.lt_succ_of_lt hi))
      (fun i hi => hbp i (Nat.lt_succ_of_lt hi)) (fun i hi => htrail i (Nat.lt_succ_of_lt hi))]
    have hf : f₀ - j = (f₀ - (j + 1)) + 1 := by omega
    rw [hf, trailing_loop_succ_of_lbp env trailing rbp _ (node j) recurse (cur j) (cur' j)
      (bp j) (hres j hj), if_pos (hbp j hj), Parsec.bind_ok _ _ _ _ _ (htrail j hj)]

/-- Nodes of the two rounds of the loop on "1+2+3". -/
theorem trailing_loop_steps_witness :
    trailing_loop scenario_env scenario_trailing 0 5 (Expr.Lit 1) (scenario_handle 3)
        "+2+3".toList
      = trailing_loop scenario_env scenario_trailing 0 (5 - 2)
          (Expr.Add (Expr.Add (Expr.Lit 1) (Expr.Lit 2)) (Expr.Lit 3)) (scenario_handle 3) [] :=
  trailing_loop_steps scenario_env scenario_trailing 0 (scenario_handle 3)
    (fun i => if i = 0 then Expr.Lit 1 else if i = 1 then Expr.Add (Expr.Lit 1) (Expr.Lit 2)
      else Expr.Add (Expr.Add (Expr.Lit 1) (Expr.Lit 2)) (Expr.Lit 3))
    (fun i => if i = 0 then "+2+3".toList else if i = 1 then "+3".toList else [])
    (fun i => if i = 0 then "+2+3".toList else "+3".toList)
    (fun _ => 10) 2 5 (by decide)
    (fun i hi => by interval_cases i <;> rfl)
    (fun _ _ => (by decide : 0 < 10))
    (fun i hi => by interval_cases i <;> rfl)

/-! ## Fuel in the engine -/

/-- C7 (as stated, refuted): in the scenario on input "1" the leading rule succeeds
with `Lit 1` and leaves 0 characters; the engine body returns `Lit 1`, whereas
the loop entered with fuel equal to the remaining count (0) fails. -/
theorem fuel_equals_remaining_refuted :
    scenario_leading (scenario_handle 3) "1".toList = Result.ok (Expr.Lit 1) []
    ∧ scenario_env.remaining [] = 0
    ∧ pratt_parser_lambda_5 scenario_env scenario_leading scenario_trailing (scenario_handle 3)
        0 "1".toList = Result.ok (Expr.Lit 1) []
    ∧ pratt_parser_lambda_5 scenario_env scenario_leading scenario_trailing (scenario_handle 3)
        0 "1".toList
      ≠ trailing_loop scenario_env scenario_trailing 0 (scenario_env.remaining [])
          (Expr.Lit 1) (scenario_handle 3) [] := by
  refine ⟨rfl, rfl, rfl, ?_⟩
  intro h
  have h1 : pratt_parser_lambda_5 scenario_env scenario_leading scenario_trailing
      (scenario_handle 3) 0 "1".toList = Result.ok (Expr.Lit 1) [] := rfl
  have h2 : trailing_loop scenario_env scenario_trailing 0 (scenario_env.remaining [])
      (Expr.Lit 1) (scenario_handle 3) []
      = Result.error { it := [], unexpected := "unreachable", expected := [], custom := none } :=
    rfl
  rw [h1, h2] at h
  cases h

/-- C7 (amended): in every run of the engine body whose leading rule succeeds,
the fuel handed to the loop is the remaining-input count measured right after
the leading rule returned, plus one; the same holds for every `parseExpr` call
made through the engine's recursion handle. -/
theorem fuel_is_remaining_succ {σ τ ν : Type} (env : Collab σ τ)
    (leading : (Nat → Parsec σ ν) → Parsec σ ν)
    (trailing : ν → (Nat → Parsec σ ν) → Parsec σ ν)
    (recurse : Nat → Parsec σ ν) (rbp : Nat) (it it₁ : σ) (node : ν)
    (hlead : leading recurse it = Result.ok node it₁) :
    pratt_parser_lambda_5 env leading trailing recurse rbp it
      = trailing_loop env trailing rbp (env.remaining it₁ + 1) node recurse it₁
    ∧ ∀ depth : Nat,
        recurse = fix_core (pratt_parser_lambda_1 env)
          (pratt_parser_lambda_5 env leading trailing) depth →
        pratt_parser_rarg env leading trailing (fun r => r rbp) (depth + 1) it
          = trailing_loop env trailing rbp (env.remaining it₁ + 1) node recurse it₁ := by
  have key : pratt_parser_lambda_5 env leading trailing recurse rbp it
      = trailing_loop env trailing rbp (env.remaining it₁ + 1) node recurse it₁ := by
    unfold pratt_parser_lambda_5
    rw [Parsec.bind_ok _ _ it it₁ node hlead]
    rfl
  refine ⟨key, ?_⟩
  intro depth hrec
  rw [← key, hrec]
  rfl

theorem fuel_is_remaining_succ_witness :
    scenario_leading (scenario_handle 3) "1+2".toList = Result.ok (Expr.Lit 1) "+2".toList
    ∧ (pratt_parser_lambda_5 scenario_env scenario_leading scenario_trailing
          (scenario_handle 3) 0 "1+2".toList
        = trailing_loop scenario_env scenario_trailing 0
            (scenario_env.remaining "+2".toList + 1) (Expr.Lit 1) (scenario_handle 3)
            "+2".toList
      ∧ ∀ depth : Nat,
          scenario_handle 3 = fix_core (pratt_parser_lambda_1 scenario_env)
            (pratt_parser_lambda_5 scenario_env scenario_leading scenario_trailing) depth →
          pratt_parser_rarg scenario_env scenario_leading scenario_trailing (fun r => r 0)
              (depth + 1) "1+2".toList
            = trailing_loop scenario_env scenario_trailing 0
                (scenario_env.remaining "+2".toList + 1) (Expr.Lit 1) (scenario_handle 3)
                "+2".toList) :=
  ⟨rfl, fuel_is_remaining_succ scenario_env scenario_leading scenario_trailing
    (scenario_handle 3) 0 "1+2".toList "+2".toList (Expr.Lit 1) rfl⟩

/-! ## The resolver on tokens without a registry entry -/

/-- C11: for a lookahead that is an identifier, a number node or a string-literal
node, the resolver succeeds with the constant `max_prec`; it takes no threshold,
and the answer is the same for every registry (so in particular when the token
has no registry entry). -/
theorem atom_precedence {σ τ ν : Type} (env : Collab σ τ) (recurse : Nat → Parsec σ ν)
    (it it' : σ) (tk : Syntax)
    (h : env.peek_token it = Result.ok (Except.ok tk) it')
    (hk : (∃ i, tk = Syntax.ident i)
      ∨ (∃ n, tk = Syntax.raw_node n ∧ (n.kind = env.number ∨ n.kind = string_lit))) :
    ∀ trie : τ, curr_lbp { env with cfg := { env.cfg with tokens := trie } } recurse it
      = Result.ok env.maxPrec it' := by
  intro trie
  have h' : Collab.peek_token { env with cfg := { env.cfg with tokens := trie } } it
      = Result.ok (Except.ok tk) it' := h
  unfold curr_lbp
  rw [Parsec.bind_ok _ _ it it' _ h']
  rcases hk with ⟨i, rfl⟩ | ⟨n, rfl, hn | hn⟩
  · rfl
  · simp only [curr_lbp_lambda_3, hn, if_true]
    rfl
  · simp only [curr_lbp_lambda_3, hn, if_true, ite_self]
    rfl

theorem atom_precedence_witness :
    scenario_env.peek_token "2*3".toList
      = Result.ok (Except.ok (Syntax.raw_node { kind := scenario_number, args := [] }))
          "2*3".toList
    ∧ ∀ trie : List TokenConfig,
        curr_lbp { scenario_env with cfg := { scenario_env.cfg with tokens := trie } }
          (scenario_handle 3) "2*3".toList
        = Result.ok scenario_env.maxPrec "2*3".toList :=
  ⟨rfl, atom_precedence scenario_env (scenario_handle 3) "2*3".toList "2*3".toList
    (Syntax.raw_node { kind := scenario_number, args := [] }) rfl
    (Or.inr ⟨{ kind := scenario_number, args := [] }, rfl, Or.inl rfl⟩)⟩

/-- Equal failures carry equal diagnostic strings. -/
theorem unexpected_of_error_eq {σ α : Type} (m₁ m₂ : Message σ)
    (h : (Result.error m₁ : Result σ α) = Result.error m₂) :
    m₁.unexpected = m₂.unexpected := by
  cases h
  rfl

/-- C12 (as stated, refuted): in the scenario the lookahead `?` is a symbol token
with no registry match (and is no identifier, number or string literal); the
resolver fails with the message "curr_lbp: unreachable", not with
"curr_lbp: unknown token kind". -/
theorem unknown_kind_message_refuted :
    scenario_env.peek_token "?".toList
      = Result.ok (Except.ok (Syntax.atom { info := none, val := "?" })) "?".toList
    ∧ Collab.match_prefix scenario_env scenario_env.cfg.tokens (scenario_env.mk_iterator "?")
      = none
    ∧ curr_lbp scenario_env (scenario_handle 3) "?".toList
      = Result.error
          { it := "?".toList, unexpected := "curr_lbp: unreachable", expected := [],
            custom := none }
    ∧ curr_lbp scenario_env (scenario_handle 3) "?".toList
      ≠ Result.error
          { it := "?".toList, unexpected := "curr_lbp: unknown token kind", expected := [],
            custom := none } := by
  refine ⟨rfl, rfl, rfl, ?_⟩
  intro h
  have h1 : curr_lbp scenario_env (scenario_handle 3) "?".toList
      = Result.error
          { it := "?".toList, unexpected := "curr_lbp: unreachable", expected := [],
            custom := none } := rfl
  rw [h1] at h
  exact absurd (unexpected_of_error_eq _ _ h) (by decide)

/-- C12 (amended): for a lookahead that is a node whose kind is neither `number`
nor `string_lit`, or that is the `missing` token, the resolver fails at the
cursor the lookahead read left with the message "curr_lbp: unknown token kind"
and the empty expected set, for every registry; it returns no precedence. -/
theorem unknown_token_kind {σ τ ν : Type} (env : Collab σ τ) (recurse : Nat → Parsec σ ν)
    (it it' : σ) (tk : Syntax)
    (h : env.peek_token it = Result.ok (Except.ok tk) it')
    (hk : tk = Syntax.missing
      ∨ (∃ n, tk = Syntax.raw_node n ∧ n.kind ≠ env.number ∧ n.kind ≠ string_lit)) :
    ∀ trie : τ, curr_lbp { env with cfg := { env.cfg with tokens := trie } } recurse it
      = Result.error
          { it := it', unexpected := "curr_lbp: unknown token kind", expected := [],
            custom := none } := by
  intro trie
  have h' : Collab.peek_token { env with cfg := { env.cfg with tokens := trie } } it
      = Result.ok (Except.ok tk) it' := h
  unfold curr_lbp
  rw [Parsec.bind_ok _ _ it it' _ h']
  rcases hk with rfl | ⟨n, rfl, hn, hs⟩
  · rfl
  · simp only [curr_lbp_lambda_3, hn, hs, if_false]
    rfl

theorem unknown_token_kind_witness :
    other_env.peek_token "x".toList
      = Result.ok (Except.ok (Syntax.raw_node { kind := other_kind, args := [] })) "x".toList
    ∧ ∀ trie : List TokenConfig,
        curr_lbp { other_env with cfg := { other_env.cfg with tokens := trie } }
          (scenario_handle 3) "x".toList
        = Result.error
            { it := "x".toList, unexpected := "curr_lbp: unknown token kind", expected := [],
              custom := none } :=
  ⟨rfl, unknown_token_kind other_env (scenario_handle 3) "x".toList "x".toList
    (Syntax.raw_node { kind := other_kind, args := [] }) rfl
    (Or.inr ⟨{ kind := other_kind, args := [] }, rfl, by decide, by decide⟩)⟩

/-! ## Failures and natural termination of the loop -/

/-- The loop at positive fuel fails with the resolver's failure. -/
theorem trailing_loop_of_lbp_error {σ τ ν : Type} (env : Collab σ τ)
    (trailing : ν → (Nat → Parsec σ ν) → Parsec σ ν) (rbp n : Nat) (node : ν)
    (recurse : Nat → Parsec σ ν) (it : σ) (msg : Message σ)
    (h : curr_lbp env recurse it = Result.error msg) :
    trailing_loop env trailing rbp (n + 1) node recurse it = Result.error msg := by
  rw [trailing_loop]
  exact Parsec.bind_error _ _ it msg h

/-- The engine body after a successful leading rule. -/
theorem pratt_parser_lambda_5_of_ok {σ τ ν : Type} (env : Collab σ τ)
    (leading : (Nat → Parsec σ ν) → Parsec σ ν)
    (trailing : ν → (Nat → Parsec σ ν) → Parsec σ ν)
    (recurse : Nat → Parsec σ ν) (rbp : Nat) (it it₁ : σ) (node : ν)
    (hlead : leading recurse it = Result.ok node it₁) :
    pratt_parser_lambda_5 env leading trailing recurse rbp it
      = trailing_loop env trailing rbp (env.remaining it₁ + 1) node recurse it₁ := by
  unfold pratt_parser_lambda_5
  rw [Parsec.bind_ok _ _ it it₁ node hlead]
  rfl

/-- The engine body after a failed leading rule. -/
theorem pratt_parser_lambda_5_of_error {σ τ ν : Type} (env : Collab σ τ)
    (leading : (Nat → Parsec σ ν) → Parsec σ ν)
    (trailing : ν → (Nat → Parsec σ ν) → Parsec σ ν)
    (recurse : Nat → Parsec σ ν) (rbp : Nat) (it : σ) (msg : Message σ)
    (hlead : leading recurse it = Result.error msg) :
    pratt_parser_lambda_5 env leading trailing recurse rbp it = Result.error msg := by
  unfold pratt_parser_lambda_5
  exact Parsec.bind_error _ _ it msg hlead

/-- The resolver answers 0 when the lookahead read reports no token. -/
theorem curr_lbp_of_no_token {σ τ ν : Type} (env : Collab σ τ) (recurse : Nat → Parsec σ ν)
    (it it' : σ) (e : Message σ)
    (h : env.peek_token it = Result.ok (Except.error e) it') :
    curr_lbp env recurse it = Result.ok 0 it' := by
  unfold curr_lbp
  rw [Parsec.bind_ok _ _ it it' _ h]
  rfl

/-- C13: with positive fuel, if the resolver fails at the current cursor, the loop
fails with that same error for every threshold and every trailing rule (the rule
is not run, the node is not returned), and so does the engine body whose
leading rule left that cursor. -/
theorem resolver_failure_is_hard {σ τ ν : Type} (env : Collab σ τ)
    (trailing : ν → (Nat → Parsec σ ν) → Parsec σ ν) (rbp n : Nat) (node : ν)
    (recurse : Nat → Parsec σ ν) (it : σ) (msg : Message σ)
    (hres : curr_lbp env recurse it = Result.error msg) :
    trailing_loop env trailing rbp (n + 1) node recurse it = Result.error msg
    ∧ ∀ (leading : (Nat → Parsec σ ν) → Parsec σ ν) (it₀ : σ),
        leading recurse it₀ = Result.ok node it →
        pratt_parser_lambda_5 env leading trailing recurse rbp it₀ = Result.error msg := by
  refine ⟨trailing_loop_of_lbp_error env trailing rbp n node recurse it msg hres, ?_⟩
  intro leading it₀ hlead
  rw [pratt_parser_lambda_5_of_ok env leading trailing recurse rbp it₀ it node hlead]
  exact trailing_loop_of_lbp_error env trailing rbp _ node recurse it msg hres

theorem resolver_failure_is_hard_witness :
    curr_lbp scenario_env (scenario_handle 3) "?".toList
      = Result.error
          { it := "?".toList, unexpected := "curr_lbp: unreachable", expected := [],
            custom := none }
    ∧ (trailing_loop scenario_env scenario_trailing 0 (0 + 1) (Expr.Lit 1) (scenario_handle 3)
          "?".toList
        = Result.error
            { it := "?".toList, unexpected := "curr_lbp: unreachable", expected := [],
              custom := none }
      ∧ ∀ (leading : (Nat → Parsec (List Char) Expr) → Parsec (List Char) Expr)
          (it₀ : List Char),
          leading (scenario_handle 3) it₀ = Result.ok (Expr.Lit 1) "?".toList →
          pratt_parser_lambda_5 scenario_env leading scenario_trailing (scenario_handle 3) 0 it₀
            = Result.error
                { it := "?".toList, unexpected := "curr_lbp: unreachable", expected := [],
                  custom := none }) :=
  ⟨rfl, resolver_failure_is_hard scenario_env scenario_trailing 0 0 (Expr.Lit 1)
    (scenario_handle 3) "?".toList
    { it := "?".toList, unexpected := "curr_lbp: unreachable", expected := [], custom := none }
    rfl⟩

/-- C14: with positive fuel, when the resolver answers a binding power above the
threshold and the trailing rule then fails with an error, the loop fails with
exactly that error: nothing is retried and nothing runs after it. -/
theorem trailing_failure_propagates {σ τ ν : Type} (env : Collab σ τ)
    (trailing : ν → (Nat → Parsec σ ν) → Parsec σ ν) (rbp n : Nat) (node : ν)
    (recurse : Nat → Parsec σ ν) (it it' : σ) (bp : Nat) (e : Message σ)
    (hres : curr_lbp env recurse it = Result.ok bp it') (hbp : rbp < bp)
    (htrail : trailing node recurse it' = Result.error e) :
    trailing_loop env trailing rbp (n + 1) node recurse it = Result.error e := by
  rw [trailing_loop_succ_of_lbp env trailing rbp n node recurse it it' bp hres, if_pos hbp]
  exact Parsec.bind_error _ _ it' e htrail

theorem trailing_failure_propagates_witness :
    curr_lbp scenario_env (scenario_handle 3) "+".toList = Result.ok 10 "+".toList
    ∧ 0 < 10
    ∧ scenario_trailing (Expr.Lit 1) (scenario_handle 3) "+".toList
      = Result.error
          { it := [], unexpected := "end of input", expected := ["expression"], custom := none }
    ∧ trailing_loop scenario_env scenario_trailing 0 (4 + 1) (Expr.Lit 1) (scenario_handle 3)
        "+".toList
      = Result.error
          { it := [], unexpected := "end of input", expected := ["expression"], custom := none } :=
  ⟨rfl, by decide, rfl,
    trailing_failure_propagates scenario_env scenario_trailing 0 4 (Expr.Lit 1)
      (scenario_handle 3) "+".toList "+".toList 10
      { it := [], unexpected := "end of input", expected := ["expression"], custom := none }
      rfl (by decide) rfl⟩

/-- C15: with positive fuel, for every threshold (0 included) and every node, if
the lookahead read reports no token, the loop succeeds with the node unchanged,
whatever the trailing rule is; hence the engine body returns the leading rule's
node unchanged when the leading rule left a cursor with no token ahead. -/
theorem loop_stops_at_end_of_input {σ τ ν : Type} (env : Collab σ τ)
    (trailing : ν → (Nat → Parsec σ ν) → Parsec σ ν) (rbp n : Nat) (node : ν)
    (recurse : Nat → Parsec σ ν) (it it' : σ) (e : Message σ)
    (h : env.peek_token it = Result.ok (Except.error e) it') :
    trailing_loop env trailing rbp (n + 1) node recurse it = Result.ok node it'
    ∧ ∀ (leading : (Nat → Parsec σ ν) → Parsec σ ν) (it₀ : σ),
        leading recurse it₀ = Result.ok node it →
        pratt_parser_lambda_5 env leading trailing recurse rbp it₀ = Result.ok node it' := by
  have hloop : ∀ m : Nat,
      trailing_loop env trailing rbp (m + 1) node recurse it = Result.ok node it' := by
    intro m
    rw [trailing_loop_succ_of_lbp env trailing rbp m node recurse it it' 0
      (curr_lbp_of_no_token env recurse it it' e h), if_neg (Nat.not_lt_zero rbp)]
    rfl
  refine ⟨hloop n, ?_⟩
  intro leading it₀ hlead
  rw [pratt_parser_lambda_5_of_ok env leading trailing recurse rbp it₀ it node hlead]
  exact hloop _

theorem loop_stops_at_end_of_input_witness :
    scenario_env.peek_token [] = Result.ok (Except.error
        { it := [], unexpected := "end of input", expected := [], custom := none }) []
    ∧ (trailing_loop scenario_env scenario_trailing 0 (0 + 1) (Expr.Lit 1) (scenario_handle 3) []
        = Result.ok (Expr.Lit 1) []
      ∧ ∀ (leading : (Nat → Parsec (List Char) Expr) → Parsec (List Char) Expr)
          (it₀ : List Char),
          leading (scenario_handle 3) it₀ = Result.ok (Expr.Lit 1) [] →
          pratt_parser_lambda_5 scenario_env leading scenario_trailing (scenario_handle 3) 0 it₀
            = Result.ok (Expr.Lit 1) []) :=
  ⟨rfl, loop_stops_at_end_of_input scenario_env scenario_trailing 0 0 (Expr.Lit 1)
    (scenario_handle 3) [] []
    { it := [], unexpected := "end of input", expected := [], custom := none } rfl⟩

/-- C16: the loop called with fuel 0 halts at once: its outcome is recorded at the
entry cursor (no input is consumed), and it is the same outcome whatever the
lookahead read, the registry, the trailing rule, the threshold and the node are,
so neither the resolver nor the trailing rule takes part in it. -/
theorem zero_fuel_halts {σ τ ν : Type} (env : Collab σ τ)
    (trailing : ν → (Nat → Parsec σ ν) → Parsec σ ν) (rbp : Nat) (node : ν)
    (recurse : Nat → Parsec σ ν) (it : σ) :
    (trailing_loop env trailing rbp 0 node recurse it).cursor = it
    ∧ ∀ (peek : Parsec σ (Except (Message σ) Syntax)) (cfg : ParserConfig τ)
        (trailing' : ν → (Nat → Parsec σ ν) → Parsec σ ν) (rbp' : Nat) (node' : ν),
        trailing_loop { env with peek_token := peek, cfg := cfg } trailing' rbp' 0 node'
          recurse it
        = trailing_loop env trailing rbp 0 node recurse it := by
  constructor
  · rw [fuel_zero_fails_aux env trailing rbp node recurse it]
    rfl
  · intro peek cfg trailing' rbp' node'
    rw [fuel_zero_fails_aux env trailing rbp node recurse it,
      fuel_zero_fails_aux { env with peek_token := peek, cfg := cfg } trailing' rbp' node'
        recurse it]

/-! ## Purity of the resolver -/

/-- C17: at a cursor that the lookahead read does not advance, the resolver leaves
the cursor exactly as it was, and running it a second time right after the first
gives the outcome of the first run again (the same precedence at the same
cursor, or the same error). -/
theorem resolver_purity {σ τ ν : Type} (env : Collab σ τ) (recurse : Nat → Parsec σ ν)
    (it : σ)
    (hpeek : ∀ r it', env.peek_token it = Result.ok r it' → it' = it) :
    (∀ bp it', curr_lbp env recurse it = Result.ok bp it' → it' = it)
    ∧ (∀ bp it', curr_lbp env recurse it = Result.ok bp it' →
        curr_lbp env recurse it' = Result.ok bp it')
    ∧ Parsec.bind (curr_lbp env recurse) (fun _ => curr_lbp env recurse) it
      = curr_lbp env recurse it := by
  have hsame : ∀ bp it', curr_lbp env recurse it = Result.ok bp it' → it' = it := by
    intro bp it' hres
    have hc := curr_lbp_cursor env recurse it
    rw [hres] at hc
    cases hp : env.peek_token it with
    | error msg =>
      have herr : curr_lbp env recurse it = Result.error msg := by
        unfold curr_lbp
        exact Parsec.bind_error _ _ it msg hp
      rw [herr] at hres
      cases hres
    | ok r it₁ =>
      rw [hp] at hc
      simp only [Result.cursor] at hc
      rw [hc]
      exact hpeek r it₁ hp
  refine ⟨hsame, ?_, ?_⟩
  · intro bp it' hres
    have := hsame bp it' hres
    subst this
    exact hres
  · cases hres : curr_lbp env recurse it with
    | error msg => exact Parsec.bind_error _ _ it msg hres
    | ok bp it' =>
      rw [Parsec.bind_ok _ _ it it' bp hres]
      have := hsame bp it' hres
      subst this
      exact hres

theorem resolver_purity_witness :
    (∀ bp it', curr_lbp scenario_env (scenario_handle 3) "*3".toList = Result.ok bp it' →
        it' = "*3".toList)
    ∧ (∀ bp it', curr_lbp scenario_env (scenario_handle 3) "*3".toList = Result.ok bp it' →
        curr_lbp scenario_env (scenario_handle 3) it' = Result.ok bp it')
    ∧ Parsec.bind (curr_lbp scenario_env (scenario_handle 3))
        (fun _ => curr_lbp scenario_env (scenario_handle 3)) "*3".toList
      = curr_lbp scenario_env (scenario_handle 3) "*3".toList :=
  resolver_purity scenario_env (scenario_handle 3) "*3".toList
    (fun _ _ h => by cases h; rfl)

/-! ## The engine: delegation, failures, composition -/

/-- C18: if the leading rule fails with an error, the engine body fails with
exactly that error, whatever the collaborators, the trailing rule and the
threshold are (so neither the remaining-input measurement, the resolver nor the
trailing rule takes part), and so does the `parseExpr` call made through the
engine's recursion handle. -/
theorem leading_failure_delegates {σ τ ν : Type} (env : Collab σ τ)
    (leading : (Nat → Parsec σ ν) → Parsec σ ν)
    (trailing : ν → (Nat → Parsec σ ν) → Parsec σ ν)
    (recurse : Nat → Parsec σ ν) (rbp : Nat) (it : σ) (e : Message σ)
    (hlead : leading recurse it = Result.error e) :
    (∀ (env' : Collab σ τ) (trailing' : ν → (Nat → Parsec σ ν) → Parsec σ ν) (rbp' : Nat),
        pratt_parser_lambda_5 env' leading trailing' recurse rbp' it = Result.error e)
    ∧ ∀ depth : Nat,
        recurse = fix_core (pratt_parser_lambda_1 env)
          (pratt_parser_lambda_5 env leading trailing) depth →
        pratt_parser_rarg env leading trailing (fun r => r rbp) (depth + 1) it
          = Result.error e := by
  refine ⟨fun env' trailing' rbp' =>
    pratt_parser_lambda_5_of_error env' leading trailing' recurse rbp' it e hlead, ?_⟩
  intro depth hrec
  rw [← pratt_parser_lambda_5_of_error env leading trailing recurse rbp it e hlead, hrec]
  rfl

theorem leading_failure_delegates_witness :
    scenario_leading (scenario_handle 3) []
      = Result.error
          { it := [], unexpected := "end of input", expected := ["expression"], custom := none }
    ∧ ((∀ (env' : Collab (List Char) (List TokenConfig))
          (trailing' : Expr → (Nat → Parsec (List Char) Expr) → Parsec (List Char) Expr)
          (rbp' : Nat),
          pratt_parser_lambda_5 env' scenario_leading trailing' (scenario_handle 3) rbp' []
            = Result.error
                { it := [], unexpected := "end of input", expected := ["expression"],
                  custom := none })
      ∧ ∀ depth : Nat,
          scenario_handle 3 = fix_core (pratt_parser_lambda_1 scenario_env)
            (pratt_parser_lambda_5 scenario_env scenario_leading scenario_trailing) depth →
          pratt_parser_rarg scenario_env scenario_leading scenario_trailing (fun r => r 0)
              (depth + 1) []
            = Result.error
                { it := [], unexpected := "end of input", expected := ["expression"],
                  custom := none }) :=
  ⟨rfl, leading_failure_delegates scenario_env scenario_leading scenario_trailing
    (scenario_handle 3) 0 []
    { it := [], unexpected := "end of input", expected := ["expression"], custom := none } rfl⟩

/-- C20: for every minimum precedence, the engine body is the leading rule
followed by the loop on the leading rule's node, with the threshold equal to the
minimum precedence and the fuel measured at the cursor the leading rule left
(`parseExpr_direct`); its result, success or failure, is the loop's.  The same
holds for every `parseExpr` call made through the engine's recursion handle. -/
theorem engine_composition {σ τ ν : Type} (env : Collab σ τ)
    (leading : (Nat → Parsec σ ν) → Parsec σ ν)
    (trailing : ν → (Nat → Parsec σ ν) → Parsec σ ν)
    (minPrecedence : Nat) :
    (∀ recurse : Nat → Parsec σ ν,
        pratt_parser_lambda_5 env leading trailing recurse minPrecedence
          = parseExpr_direct env leading trailing recurse minPrecedence)
    ∧ ∀ depth : Nat,
        pratt_parser_rarg env leading trailing (fun r => r minPrecedence) (depth + 1)
          = parseExpr_direct env leading trailing
              (fix_core (pratt_parser_lambda_1 env)
                (pratt_parser_lambda_5 env leading trailing) depth) minPrecedence := by
  have key : ∀ recurse : Nat → Parsec σ ν,
      pratt_parser_lambda_5 env leading trailing recurse minPrecedence
        = parseExpr_direct env leading trailing recurse minPrecedence := by
    intro recurse
    funext it
    unfold parseExpr_direct
    cases hl : leading recurse it with
    | error m => exact pratt_parser_lambda_5_of_error env leading trailing recurse _ it m hl
    | ok node it₁ =>
      exact pratt_parser_lambda_5_of_ok env leading trailing recurse _ it it₁ node hl
  refine ⟨key, ?_⟩
  intro depth
  rw [← key]
  rfl

/-! ## Symbol tokens without a registry entry -/

/-- C23: for a symbol lookahead whose text has no match in the registry trie, the
resolver fails at the cursor the lookahead read left with the message
"curr_lbp: unreachable" and the empty expected set; this is not the
unknown-token-kind failure, and no precedence is returned. -/
theorem unmatched_symbol_unreachable {σ τ ν : Type} (env : Collab σ τ)
    (recurse : Nat → Parsec σ ν) (it it' : σ) (a : SyntaxAtom)
    (h : env.peek_token it = Result.ok (Except.ok (Syntax.atom a)) it')
    (hm : Collab.match_prefix env env.cfg.tokens (env.mk_iterator a.val) = none) :
    curr_lbp env recurse it
      = Result.error
          { it := it', unexpected := "curr_lbp: unreachable", expected := [], custom := none }
    ∧ curr_lbp env recurse it
      ≠ Result.error
          { it := it', unexpected := "curr_lbp: unknown token kind", expected := [],
            custom := none }
    ∧ ∀ bp it₂, curr_lbp env recurse it ≠ Result.ok bp it₂ := by
  have key : curr_lbp env recurse it
      = Result.error
          { it := it', unexpected := "curr_lbp: unreachable", expected := [],
            custom := none } := by
    unfold curr_lbp
    rw [Parsec.bind_ok _ _ it it' _ h]
    simp only [curr_lbp_lambda_3, Parsec.bind, Collab.read, Parsec.pure, curr_lbp_lambda_2, hm,
      curr_lbp_lambda_1]
    rfl
  refine ⟨key, ?_, ?_⟩
  · rw [key]
    intro heq
    have hu : "curr_lbp: unreachable" = "curr_lbp: unknown token kind" :=
      unexpected_of_error_eq _ _ heq
    exact absurd hu (by decide)
  · intro bp it₂ heq
    rw [key] at heq
    cases heq

theorem unmatched_symbol_unreachable_witness :
    scenario_env.peek_token "?".toList
      = Result.ok (Except.ok (Syntax.atom { info := none, val := "?" })) "?".toList
    ∧ Collab.match_prefix scenario_env scenario_env.cfg.tokens (scenario_env.mk_iterator "?")
      = none
    ∧ (curr_lbp scenario_env (scenario_handle 3) "?".toList
        = Result.error
            { it := "?".toList, unexpected := "curr_lbp: unreachable", expected := [],
              custom := none }
      ∧ curr_lbp scenario_env (scenario_handle 3) "?".toList
        ≠ Result.error
            { it := "?".toList, unexpected := "curr_lbp: unknown token kind", expected := [],
              custom := none }
      ∧ ∀ bp it₂, curr_lbp scenario_env (scenario_handle 3) "?".toList ≠ Result.ok bp it₂) :=
  ⟨rfl, rfl,
    unmatched_symbol_unreachable scenario_env (scenario_handle 3) "?".toList "?".toList
      { info := none, val := "?" } rfl rfl⟩

/-! ## Token collection -/

/-- C26: the token list of a pratt parser is the leading parser's token list
followed by the trailing parser's: it is their append in that order, its length
is the sum of both lengths, its first part is the leading list and the rest is
the trailing list, so no token is dropped or reordered. -/
theorem pratt_parser_tokens_append {α : Type} (leading_tokens trailing_tokens : List α) :
    pratt_parser_tokens_rarg leading_tokens trailing_tokens = leading_tokens ++ trailing_tokens
    ∧ (pratt_parser_tokens_rarg leading_tokens trailing_tokens).length
      = leading_tokens.length + trailing_tokens.length
    ∧ (pratt_parser_tokens_rarg leading_tokens trailing_tokens).take leading_tokens.length
      = leading_tokens
    ∧ (pratt_parser_tokens_rarg leading_tokens trailing_tokens).drop leading_tokens.length
      = trailing_tokens := by
  unfold pratt_parser_tokens_rarg list_append
  exact ⟨rfl, List.length_append _ _, List.take_left' rfl, List.drop_left' rfl⟩

/-! ## Well-behaved rules, saturated thresholds, the final cursor -/

/-- A successful resolver ends at the entry cursor when the lookahead read does
not advance. -/
theorem curr_lbp_ok_same_cursor {σ τ ν : Type} (env : Collab σ τ) (recurse : Nat → Parsec σ ν)
    (hpeek : ∀ it r it', env.peek_token it = Result.ok r it' → it' = it)
    (it it' : σ) (bp : Nat) (hres : curr_lbp env recurse it = Result.ok bp it') : it' = it := by
  have hc := curr_lbp_cursor env recurse it
  rw [hres] at hc
  cases hp : env.peek_token it with
  | error msg =>
    have herr : curr_lbp env recurse it = Result.error msg := by
      unfold curr_lbp
      exact Parsec.bind_error _ _ it msg hp
    rw [herr] at hres
    cases hres
  | ok r it₁ =>
    rw [hp] at hc
    simp only [Result.cursor] at hc
    rw [hc]
    exact hpeek it r it₁ hp

/-- The lookahead of the scenario does not move the cursor. -/
theorem scenario_peek_token_same_cursor (it : List Char)
    (r : Except (Message (List Char)) Syntax) (it' : List Char)
    (h : scenario_peek_token it = Result.ok r it') : it' = it := by
  unfold scenario_peek_token at h
  split at h
  · cases h
    rfl
  · split at h <;> (cases h; rfl)

/-- Every success of the postfix rule consumes one character. -/
theorem bang_trailing_consumes (recurse : Nat → Parsec (List Char) Expr) (node : Expr)
    (it : List Char) (a : Expr) (it' : List Char)
    (h : bang_trailing node recurse it = Result.ok a it') : it'.length < it.length := by
  unfold bang_trailing at h
  split at h
  · cases h
  · split at h
    · cases h
      simp
    · cases h

/-- The loop with enough fuel never uses its zero-fuel branch: its result is the
same for every zero-fuel diagnostic and every fuel above the remaining count. -/
theorem trailing_loop_fuel_irrelevant {σ τ ν : Type} (env : Collab σ τ)
    (trailing : ν → (Nat → Parsec σ ν) → Parsec σ ν) (recurse : Nat → Parsec σ ν) (rbp : Nat)
    (hpeek : ∀ it r it', env.peek_token it = Result.ok r it' → it' = it)
    (htrail : ∀ node it a it', trailing node recurse it = Result.ok a it' →
      env.remaining it' < env.remaining it)
    (s : String) (fuel : Nat) :
    ∀ (fuel' : Nat) (node : ν) (it : σ),
      env.remaining it + 1 ≤ fuel → env.remaining it + 1 ≤ fuel' →
      trailing_loop { env with many1_aux_closed_1 := s } trailing rbp fuel node recurse it
        = trailing_loop env trailing rbp fuel' node recurse it := by
  induction fuel with
  | zero =>
    intro fuel' node it h0 _
    omega
  | succ n ih =>
    intro fuel' node it hf hf'
    cases fuel' with
    | zero => omega
    | succ n' =>
      cases hres : curr_lbp env recurse it with
      | error msg =>
        have hres' : curr_lbp { env with many1_aux_closed_1 := s } recurse it
            = Result.error msg := hres
        rw [trailing_loop_of_lbp_error _ trailing rbp n node recurse it msg hres',
          trailing_loop_of_lbp_error env trailing rbp n' node recurse it msg hres]
      | ok lbp it' =>
        have hres' : curr_lbp { env with many1_aux_closed_1 := s } recurse it
            = Result.ok lbp it' := hres
        have hit := curr_lbp_ok_same_cursor env recurse hpeek it it' lbp hres
        rw [trailing_loop_succ_of_lbp _ trailing rbp n node recurse it it' lbp hres',
          trailing_loop_succ_of_lbp env trailing rbp n' node recurse it it' lbp hres]
        by_cases hlt : rbp < lbp
        · rw [if_pos hlt, if_pos hlt]
          cases htr : trailing node recurse it' with
          | error msg =>
            rw [Parsec.bind_error _ _ it' msg htr, Parsec.bind_error _ _ it' msg htr]
          | ok node' it₂ =>
            rw [Parsec.bind_ok _ _ it' it₂ node' htr, Parsec.bind_ok _ _ it' it₂ node' htr]
            have hdec := htrail node it' node' it₂ htr
            rw [hit] at hdec
            exact ih n' node' it₂ (by omega) (by omega)
        · rw [if_neg hlt, if_neg hlt]

/-- C22: if every successful run of the trailing rule strictly decreases the
remaining-input count and the lookahead read does not move the cursor, then a
loop entered with fuel at least remaining + 1 never takes its zero-fuel branch:
its result is the same for every zero-fuel diagnostic string and for every other
fuel of at least remaining + 1; the engine body, which enters the loop with fuel
remaining + 1, therefore never produces the loop's fuel-exhaustion outcome. -/
theorem fuel_exhaustion_unreachable {σ τ ν : Type} (env : Collab σ τ)
    (trailing : ν → (Nat → Parsec σ ν) → Parsec σ ν) (recurse : Nat → Parsec σ ν) (rbp : Nat)
    (hpeek : ∀ it r it', env.peek_token it = Result.ok r it' → it' = it)
    (htrail : ∀ node it a it', trailing node recurse it = Result.ok a it' →
      env.remaining it' < env.remaining it) :
    (∀ (s : String) (fuel fuel' : Nat) (node : ν) (it : σ),
        env.remaining it + 1 ≤ fuel → env.remaining it + 1 ≤ fuel' →
        trailing_loop { env with many1_aux_closed_1 := s } trailing rbp fuel node recurse it
          = trailing_loop env trailing rbp fuel' node recurse it)
    ∧ ∀ (s : String) (leading : (Nat → Parsec σ ν) → Parsec σ ν) (it : σ),
        pratt_parser_lambda_5 { env with many1_aux_closed_1 := s } leading trailing recurse
            rbp it
          = pratt_parser_lambda_5 env leading trailing recurse rbp it := by
  refine ⟨fun s fuel fuel' node it =>
    trailing_loop_fuel_irrelevant env trailing recurse rbp hpeek htrail s fuel fuel' node it, ?_⟩
  intro s leading it
  cases hl : leading recurse it with
  | error msg =>
    rw [pratt_parser_lambda_5_of_error _ leading trailing recurse rbp it msg hl,
      pratt_parser_lambda_5_of_error env leading trailing recurse rbp it msg hl]
  | ok node it₁ =>
    rw [pratt_parser_lambda_5_of_ok _ leading trailing recurse rbp it it₁ node hl,
      pratt_parser_lambda_5_of_ok env leading trailing recurse rbp it it₁ node hl]
    exact trailing_loop_fuel_irrelevant env trailing recurse rbp hpeek htrail s _ _ node it₁
      (Nat.le_refl _) (Nat.le_refl _)

theorem fuel_exhaustion_unreachable_witness :
    trailing_loop { bang_env with many1_aux_closed_1 := "fuel exhausted" } bang_trailing 0 3
        (Expr.Lit 1) (scenario_handle 3) "!!".toList
      = trailing_loop bang_env bang_trailing 0 7 (Expr.Lit 1) (scenario_handle 3) "!!".toList
    ∧ pratt_parser_lambda_5 { bang_env with many1_aux_closed_1 := "fuel exhausted" }
        scenario_leading bang_trailing (scenario_handle 3) 0 "1!!".toList
      = pratt_parser_lambda_5 bang_env scenario_leading bang_trailing (scenario_handle 3) 0
          "1!!".toList :=
  ⟨(fuel_exhaustion_unreachable bang_env bang_trailing (scenario_handle 3) 0
      scenario_peek_token_same_cursor (bang_trailing_consumes (scenario_handle 3))).1
      "fuel exhausted" 3 7 (Expr.Lit 1) "!!".toList (by decide) (by decide),
    (fuel_exhaustion_unreachable bang_env bang_trailing (scenario_handle 3) 0
      scenario_peek_token_same_cursor (bang_trailing_consumes (scenario_handle 3))).2
      "fuel exhausted" scenario_leading "1!!".toList⟩

/-- Every entry that the trie of the scenario returns has precedence at most
`max_prec`. -/
theorem scenario_registry_bounded (it : List Char) (e : List Char × TokenConfig)
    (h : Collab.match_prefix scenario_env scenario_env.cfg.tokens it = some e) :
    e.2.lbp ≤ scenario_env.maxPrec := by
  have h' : scenario_match [{ text := "+", lbp := 10 }, { text := "*", lbp := 20 }] it
      = some e := h
  unfold scenario_match at h'
  split at h'
  · cases h'
  · rename_i entry hfind
    cases h'
    have hmem := List.mem_of_find?_eq_some hfind
    simp only [List.mem_cons, List.mem_singleton, List.not_mem_nil, or_false] at hmem
    rcases hmem with rfl | rfl
    · show 10 ≤ 1024
      decide
    · show 20 ≤ 1024
      decide

/-- C24: if every entry that the registry trie returns has a declared precedence
of at most `max_prec`, then every successful answer of the resolver is at most
`max_prec`, and for every threshold of at least `max_prec` the loop with positive
fuel never runs the trailing rule: it returns the node unchanged at the cursor
the resolver left, or fails with the resolver's error. -/
theorem saturated_threshold {σ τ ν : Type} (env : Collab σ τ) (recurse : Nat → Parsec σ ν)
    (hreg : ∀ it e, Collab.match_prefix env env.cfg.tokens it = some e →
      e.2.lbp ≤ env.maxPrec) :
    (∀ it bp it', curr_lbp env recurse it = Result.ok bp it' → bp ≤ env.maxPrec)
    ∧ ∀ (trailing : ν → (Nat → Parsec σ ν) → Parsec σ ν) (rbp n : Nat) (node : ν) (it : σ),
        env.maxPrec ≤ rbp →
        (∃ bp it', curr_lbp env recurse it = Result.ok bp it'
            ∧ trailing_loop env trailing rbp (n + 1) node recurse it = Result.ok node it')
        ∨ (∃ msg, curr_lbp env recurse it = Result.error msg
            ∧ trailing_loop env trailing rbp (n + 1) node recurse it = Result.error msg) := by
  have hle : ∀ it bp it', curr_lbp env recurse it = Result.ok bp it' → bp ≤ env.maxPrec := by
    intro it bp it' h
    unfold curr_lbp Parsec.bind at h
    cases hp : env.peek_token it with
    | error msg =>
      rw [hp] at h
      cases h
    | ok tk it₁ =>
      rw [hp] at h
      cases tk with
      | error e =>
        simp only [curr_lbp_lambda_3, Parsec.pure] at h
        cases h
        exact Nat.zero_le _
      | ok stx =>
        cases stx with
        | atom a =>
          simp only [curr_lbp_lambda_3, Parsec.bind, Collab.read, Parsec.pure,
            curr_lbp_lambda_2] at h
          cases hm : Collab.match_prefix env env.cfg.tokens (env.mk_iterator a.val) with
          | none =>
            rw [hm] at h
            simp only [curr_lbp_lambda_1, monad_parsec_error] at h
            cases h
          | some entry =>
            rw [hm] at h
            simp only [curr_lbp_lambda_1, Parsec.pure] at h
            cases h
            exact hreg _ entry hm
        | ident i =>
          simp only [curr_lbp_lambda_3, Parsec.pure] at h
          cases h
          exact Nat.le_refl _
        | raw_node nd =>
          simp only [curr_lbp_lambda_3] at h
          split at h
          · simp only [Parsec.pure] at h
            cases h
            exact Nat.le_refl _
          · split at h
            · simp only [Parsec.pure] at h
              cases h
              exact Nat.le_refl _
            · simp only [monad_parsec_error] at h
              cases h
        | missing =>
          simp only [curr_lbp_lambda_3, monad_parsec_error] at h
          cases h
  refine ⟨hle, ?_⟩
  intro trailing rbp n node it hrbp
  cases hres : curr_lbp env recurse it with
  | error msg =>
    exact Or.inr ⟨msg, rfl, trailing_loop_of_lbp_error env trailing rbp n node recurse it msg hres⟩
  | ok bp it' =>
    refine Or.inl ⟨bp, it', rfl, ?_⟩
    have hbp := hle it bp it' hres
    rw [trailing_loop_succ_of_lbp env trailing rbp n node recurse it it' bp hres,
      if_neg (by omega)]
    rfl

theorem saturated_threshold_witness :
    (∀ it bp it', curr_lbp scenario_env (scenario_handle 3) it = Result.ok bp it' →
        bp ≤ scenario_env.maxPrec)
    ∧ ∀ (trailing : Expr → (Nat → Parsec (List Char) Expr) → Parsec (List Char) Expr)
        (rbp n : Nat) (node : Expr) (it : List Char),
        scenario_env.maxPrec ≤ rbp →
        (∃ bp it', curr_lbp scenario_env (scenario_handle 3) it = Result.ok bp it'
            ∧ trailing_loop scenario_env trailing rbp (n + 1) node (scenario_handle 3) it
              = Result.ok node it')
        ∨ (∃ msg, curr_lbp scenario_env (scenario_handle 3) it = Result.error msg
            ∧ trailing_loop scenario_env trailing rbp (n + 1) node (scenario_handle 3) it
              = Result.error msg) :=
  saturated_threshold scenario_env (scenario_handle 3) scenario_registry_bounded

/-- C25: when the lookahead read does not advance the cursor and the loop returns
successfully, the final cursor is the entry cursor with the entry node (no
trailing rule ran) or the cursor and node left by a successful run of the
trailing rule; and at that final cursor the resolver still answers, without
moving, a binding power that is not above the threshold, so the token that
stopped the loop is left for the caller. -/
theorem stopping_consumes_nothing {σ τ ν : Type} (env : Collab σ τ)
    (trailing : ν → (Nat → Parsec σ ν) → Parsec σ ν) (recurse : Nat → Parsec σ ν) (rbp : Nat)
    (hpeek : ∀ it r it', env.peek_token it = Result.ok r it' → it' = it)
    (fuel : Nat) (node : ν) (it : σ) (a : ν) (itf : σ)
    (h : trailing_loop env trailing rbp fuel node recurse it = Result.ok a itf) :
    (∃ bp, curr_lbp env recurse itf = Result.ok bp itf ∧ ¬ rbp < bp)
    ∧ ((a = node ∧ itf = it)
      ∨ ∃ node₀ it₀, trailing node₀ recurse it₀ = Result.ok a itf) := by
  induction fuel generalizing node it with
  | zero =>
    rw [fuel_zero_fails_aux env trailing rbp node recurse it] at h
    cases h
  | succ n ih =>
    cases hres : curr_lbp env recurse it with
    | error msg =>
      rw [trailing_loop_of_lbp_error env trailing rbp n node recurse it msg hres] at h
      cases h
    | ok lbp it' =>
      have hit := curr_lbp_ok_same_cursor env recurse hpeek it it' lbp hres
      subst hit
      rw [trailing_loop_succ_of_lbp env trailing rbp n node recurse it' it' lbp hres] at h
      by_cases hlt : rbp < lbp
      · rw [if_pos hlt] at h
        cases htr : trailing node recurse it' with
        | error msg =>
          rw [Parsec.bind_error _ _ it' msg htr] at h
          cases h
        | ok node' it₂ =>
          rw [Parsec.bind_ok _ _ it' it₂ node' htr] at h
          rcases ih node' it₂ h with ⟨hstop, hlast | hlast⟩
          · rcases hlast with ⟨rfl, rfl⟩
            exact ⟨hstop, Or.inr ⟨node, it', htr⟩⟩
          · exact ⟨hstop, Or.inr hlast⟩
      · rw [if_neg hlt] at h
        simp only [Parsec.pure] at h
        cases h
        exact ⟨⟨lbp, hres, hlt⟩, Or.inl ⟨rfl, rfl⟩⟩

theorem stopping_consumes_nothing_witness :
    trailing_loop scenario_env scenario_trailing 11 5 (Expr.Lit 2) (scenario_handle 3)
        "*3+4".toList
      = Result.ok (Expr.Mul (Expr.Lit 2) (Expr.Lit 3)) "+4".toList
    ∧ ((∃ bp, curr_lbp scenario_env (scenario_handle 3) "+4".toList
            = Result.ok bp "+4".toList ∧ ¬ 11 < bp)
      ∧ ((Expr.Mul (Expr.Lit 2) (Expr.Lit 3) = Expr.Lit 2 ∧ "+4".toList = "*3+4".toList)
        ∨ ∃ node₀ it₀, scenario_trailing node₀ (scenario_handle 3) it₀
            = Result.ok (Expr.Mul (Expr.Lit 2) (Expr.Lit 3)) "+4".toList)) :=
  ⟨rfl, stopping_consumes_nothing scenario_env scenario_trailing (scenario_handle 3) 11
    scenario_peek_token_same_cursor 5 (Expr.Lit 2) "*3+4".toList
    (Expr.Mul (Expr.Lit 2) (Expr.Lit 3)) "+4".toList rfl⟩

/-! ## Recursive self-reference -/

end Pratt
